import Mathlib

/-!
Verification of the shopify-mcp OAuth flow and bulk-export pipeline.

Shallow embedding of the relevant TypeScript source:
* the OAuth helper module (`saveToken`, `loadToken`, `startCallbackServer`,
  `exchangeCodeForToken`, `runOAuthFlow`);
* `src/tools/startBulkExport.ts` (`startBulkExport.execute`, post-mutation slice);
* `src/tools/getBulkOperationStatus.ts` (the file-size formatter);
* `src/tools/getBulkOperationResults` (`execute`).

External platform effects (filesystem, HTTP, `JSON.parse`/`JSON.stringify`)
are modelled explicitly: the credential file holds either nothing, unparseable
bytes, or a parsed store (the platform guarantee that `JSON.parse` inverts
`JSON.stringify` on a string-keyed record of string fields is folded into the
`valid` constructor); HTTP responses are records carrying the fields the code
reads; `JSON.parse` of a result line is a caller-supplied `parse` function.
-/

namespace ShopifyMcp

/-! ### Credential store (`saveToken` / `loadToken`) -/

/-- `TokenData` from the OAuth module: `{ access_token, scope, obtained_at }`. -/
structure TokenData where
  access_token : String
  scope : String
  obtained_at : String
deriving Repr, DecidableEq

/-- `TokenStore`: JS object mapping domain → `TokenData`, kept as an
insertion-ordered association list (JS string-keyed objects preserve
insertion order; lookup is by key). -/
abbrev TokenStore := List (String × TokenData)

/-- State of the credential file `~/.shopify-mcp/tokens.json`: missing,
present but rejected by `JSON.parse`, or a parsed `TokenStore`. -/
inductive FileContent where
  | missing
  | corrupt
  | valid (store : TokenStore)
deriving Repr, DecidableEq

/-- JS `tokens[domain] = tokenData`: replace the value at an existing key in
place, else append the new binding. -/
def upsert (d : String) (t : TokenData) : TokenStore → TokenStore
  | [] => [(d, t)]
  | (d', t') :: rest => if d' = d then (d, t) :: rest else (d', t') :: upsert d t rest

/-- `saveToken(domain, tokenData)`: read the existing store (a missing or
corrupted file starts fresh as `{}`), upsert the domain's record, write the
whole store back. The `mkdirSync`/file-mode side effects have no bearing on
the file's logical content. -/
def saveToken (domain : String) (tokenData : TokenData) (file : FileContent) : FileContent :=
  let tokens : TokenStore :=
    match file with
    | .missing => []
    | .corrupt => []
    | .valid s => s
  .valid (upsert domain tokenData tokens)

/-- `loadToken(domain)`: `null` when the file is missing, `null` when
`JSON.parse` throws (the `catch` branch), else `tokens[domain] || null`. -/
def loadToken (domain : String) (file : FileContent) : Option TokenData :=
  match file with
  | .missing => none
  | .corrupt => none
  | .valid tokens => tokens.lookup domain

theorem lookup_upsert_self (d : String) (t : TokenData) (s : TokenStore) :
    (upsert d t s).lookup d = some t := by
  induction s with
  | nil => simp [upsert, List.lookup]
  | cons p rest ih =>
    obtain ⟨d', t'⟩ := p
    by_cases h : d' = d
    · simp [upsert, h, List.lookup]
    · simp only [upsert, if_neg h, List.lookup]
      have hbeq : (d == d') = false := by
        simp [beq_iff_eq]
        exact fun hc => h hc.symm
      simp [hbeq, ih]

theorem lookup_upsert_other (d d' : String) (t : TokenData) (s : TokenStore)
    (h : d' ≠ d) : (upsert d t s).lookup d' = s.lookup d' := by
  induction s with
  | nil =>
    simp only [upsert, List.lookup]
    have hbeq : (d' == d) = false := by simpa [beq_iff_eq] using h
    simp [hbeq]
  | cons p rest ih =>
    obtain ⟨d₀, t₀⟩ := p
    by_cases h0 : d₀ = d
    · subst h0
      have hbeq : (d' == d₀) = false := by simpa [beq_iff_eq] using h
      simp [upsert, List.lookup, hbeq]
    · simp only [upsert, if_neg h0, List.lookup]
      by_cases h1 : d' = d₀
      · subst h1
        simp [List.lookup]
      · have hbeq : (d' == d₀) = false := by simpa [beq_iff_eq] using h1
        simp [hbeq, ih]

theorem upsert_idem (d : String) (t : TokenData) (s : TokenStore) :
    upsert d t (upsert d t s) = upsert d t s := by
  induction s with
  | nil => simp [upsert]
  | cons p rest ih =>
    obtain ⟨d', t'⟩ := p
    by_cases h : d' = d
    · simp [upsert, h]
    · simp [upsert, h, ih]

/-- C1: for every domain `d` and token record `r`, `saveToken d r` followed by
`loadToken d` returns exactly `r`, whatever the prior state of the credential
file. -/
theorem saveToken_loadToken_roundtrip (d : String) (r : TokenData) (file : FileContent) :
    loadToken d (saveToken d r file) = some r := by
  cases file <;> simp [saveToken, loadToken, lookup_upsert_self]

/-- C4: `saveToken` is an idempotent upsert. On a well-formed store it maps
`d` to `r` and leaves every other domain's entry unchanged; applying it twice
with the same arguments equals applying it once; and on an unparseable file it
starts fresh, so the rewritten store holds only `d`'s entry. -/
theorem saveToken_frame_idempotent (d : String) (r : TokenData) :
    (∀ s : TokenStore, loadToken d (saveToken d r (.valid s)) = some r) ∧
    (∀ (s : TokenStore) (d' : String), d' ≠ d →
      loadToken d' (saveToken d r (.valid s)) = loadToken d' (.valid s)) ∧
    (∀ file : FileContent, saveToken d r (saveToken d r file) = saveToken d r file) ∧
    saveToken d r .corrupt = .valid [(d, r)] := by
  refine ⟨?_, ?_, ?_, ?_⟩
  · intro s; simp [saveToken, loadToken, lookup_upsert_self]
  · intro s d' h; simp [saveToken, loadToken, lookup_upsert_other d d' r s h]
  · intro file; cases file <;> simp [saveToken, upsert_idem]
  · rfl

/-- Witness for `saveToken_frame_idempotent` at a concrete store and domains. -/
theorem saveToken_frame_idempotent_witness :
    loadToken "other.myshopify.com"
      (saveToken "shop.myshopify.com" ⟨"tok", "read_products", "2024-01-01T00:00:00Z"⟩
        (.valid [("other.myshopify.com", ⟨"old", "s", "t"⟩)])) =
    loadToken "other.myshopify.com"
      (.valid [("other.myshopify.com", ⟨"old", "s", "t"⟩)]) :=
  (saveToken_frame_idempotent "shop.myshopify.com"
    ⟨"tok", "read_products", "2024-01-01T00:00:00Z"⟩).2.1
    [("other.myshopify.com", ⟨"old", "s", "t"⟩)] "other.myshopify.com" (by decide)

/-- C5: `loadToken` signals not-found (and, being total, never throws) when
the file is missing, when its contents fail to parse, and when the store holds
no entry for the requested domain. -/
theorem loadToken_not_found (d : String) :
    loadToken d .missing = none ∧
    loadToken d .corrupt = none ∧
    ∀ s : TokenStore, s.lookup d = none → loadToken d (.valid s) = none := by
  exact ⟨rfl, rfl, fun s h => h⟩

/-- Witness for `loadToken_not_found` at a concrete store lacking the domain. -/
theorem loadToken_not_found_witness :
    loadToken "absent.myshopify.com"
      (.valid [("shop.myshopify.com", ⟨"tok", "s", "t"⟩)]) = none :=
  (loadToken_not_found "absent.myshopify.com").2.2
    [("shop.myshopify.com", ⟨"tok", "s", "t"⟩)] (by decide)

/-! ### Token exchange (`exchangeCodeForToken`) -/

/-- Response of the `POST /admin/oauth/access_token` fetch, carrying the
fields the code reads: `ok`/`status`, the body text read in the failure
branch, and the parsed JSON body (`{ access_token, scope }`, per the source's
cast) read in the success branch. -/
structure TokenEndpointResponse where
  ok : Bool
  status : Nat
  bodyText : String
  access_token : String
  scope : String
deriving Repr, DecidableEq

/-- `exchangeCodeForToken(domain, clientId, clientSecret, code)`: throws on a
non-ok response with a message carrying the upstream status and body text,
else returns `{ access_token, scope, obtained_at: new Date().toISOString() }`.
The request parameters shape the outgoing POST only; the response and the
clock are explicit inputs. -/
def exchangeCodeForToken (domain clientId clientSecret code : String)
    (resp : TokenEndpointResponse) (now : String) : Except String TokenData :=
  let _ := (domain, clientId, clientSecret, code)
  if !resp.ok then
    .error ("Failed to exchange code for token: " ++ toString resp.status ++ " " ++ resp.bodyText)
  else
    .ok { access_token := resp.access_token, scope := resp.scope, obtained_at := now }

/-- C6: `exchangeCodeForToken` fails exactly when the token endpoint's
response is not successful, with an error carrying the upstream status and
body text; on a successful response it returns the response's `access_token`
and `scope` with `obtained_at` set to the current time. -/
theorem exchangeCodeForToken_spec (domain clientId clientSecret code : String)
    (resp : TokenEndpointResponse) (now : String) :
    ((∃ e, exchangeCodeForToken domain clientId clientSecret code resp now = .error e) ↔
      resp.ok = false) ∧
    (resp.ok = false →
      exchangeCodeForToken domain clientId clientSecret code resp now =
        .error ("Failed to exchange code for token: " ++ toString resp.status ++ " " ++
          resp.bodyText)) ∧
    (resp.ok = true →
      exchangeCodeForToken domain clientId clientSecret code resp now =
        .ok { access_token := resp.access_token, scope := resp.scope, obtained_at := now }) := by
  refine ⟨⟨?_, ?_⟩, ?_, ?_⟩
  · rintro ⟨e, he⟩
    by_contra hok
    have hok' : resp.ok = true := by
      cases h : resp.ok
      · exact absurd h hok
      · rfl
    simp [exchangeCodeForToken, hok'] at he
  · intro h
    refine ⟨"Failed to exchange code for token: " ++ toString resp.status ++ " " ++
      resp.bodyText, ?_⟩
    simp [exchangeCodeForToken, h]
  · intro h
    simp [exchangeCodeForToken, h]
  · intro h
    simp [exchangeCodeForToken, h]

/-- Witness for `exchangeCodeForToken_spec`: a concrete 401 response fails
with the upstream status and body in the message; a concrete ok response
yields the record. -/
theorem exchangeCodeForToken_spec_witness :
    exchangeCodeForToken "shop.myshopify.com" "id" "secret" "c"
      ⟨false, 401, "bad code", "", ""⟩ "2024-01-01T00:00:00Z" =
      .error "Failed to exchange code for token: 401 bad code" ∧
    exchangeCodeForToken "shop.myshopify.com" "id" "secret" "c"
      ⟨true, 200, "", "tok", "read_products"⟩ "2024-01-01T00:00:00Z" =
      .ok ⟨"tok", "read_products", "2024-01-01T00:00:00Z"⟩ := by
  constructor
  · exact (exchangeCodeForToken_spec "shop.myshopify.com" "id" "secret" "c"
      ⟨false, 401, "bad code", "", ""⟩ "2024-01-01T00:00:00Z").2.1 rfl
  · exact (exchangeCodeForToken_spec "shop.myshopify.com" "id" "secret" "c"
      ⟨true, 200, "", "tok", "read_products"⟩ "2024-01-01T00:00:00Z").2.2 rfl

/-! ### Callback server (`startCallbackServer`) -/

/-- A GET hitting the local listener: the parsed pathname and the three query
parameters as `url.searchParams.get` returns them (`none` = absent = JS
`null`). -/
structure CallbackRequest where
  pathname : String
  code : Option String
  state : Option String
  shop : Option String
deriving Repr, DecidableEq

/-- Settlement of the promise returned by `startCallbackServer`. -/
inductive Settlement where
  | resolve (code shop : String)
  | reject (message : String)
deriving Repr, DecidableEq

/-- What one run of the request handler does: the HTTP answer, whether
`server.close()` was called, and whether/how the promise was settled. -/
structure HandlerResult where
  responseStatus : Nat
  responseBody : String
  serverClosed : Bool
  settle : Option Settlement
deriving Repr, DecidableEq

/-- JS falsiness of a query-parameter value: `!v` holds for `null` and for
the empty string. -/
def jsFalsyParam : Option String → Bool
  | none => true
  | some s => s == ""

/-- The static success page the handler serves on a matching callback
(braces of the inline CSS written as escapes). -/
def callbackSuccessHtml : String :=
  "<!DOCTYPE html><html><head><title>Authorization Successful</title><style>" ++
  "body \x7b font-family: system-ui, sans-serif; max-width: 600px; margin: 100px auto; text-align: center; \x7d " ++
  "h1 \x7b color: #008060; \x7d p \x7b color: #637381; \x7d" ++
  "</style></head><body><h1>Authorization Successful!</h1>" ++
  "<p>You can close this window and return to your terminal.</p>" ++
  "<p>The Shopify MCP is now connected to your store.</p></body></html>"

/-- The request handler installed by `startCallbackServer(expectedState)`:
404 off `/callback`; 400 + close + reject when `state !== expectedState`
(a `null` state is always a mismatch); 400 + close + reject when `code` or
`shop` is falsy; else 200 + close + resolve with `{code, shop}`. -/
def handleCallbackRequest (expectedState : String) (req : CallbackRequest) : HandlerResult :=
  if req.pathname ≠ "/callback" then
    { responseStatus := 404, responseBody := "Not found",
      serverClosed := false, settle := none }
  else if req.state ≠ some expectedState then
    { responseStatus := 400, responseBody := "Invalid state parameter. Possible CSRF attack.",
      serverClosed := true, settle := some (.reject "Invalid state parameter") }
  else if jsFalsyParam req.code || jsFalsyParam req.shop then
    { responseStatus := 400, responseBody := "Missing code or shop parameter",
      serverClosed := true, settle := some (.reject "Missing code or shop parameter") }
  else
    { responseStatus := 200, responseBody := callbackSuccessHtml,
      serverClosed := true,
      settle := some (.resolve (req.code.getD "") (req.shop.getD "")) }

/-- Events the one-shot listener observes: incoming requests and the firing
of the 5-minute `setTimeout`. -/
inductive ServerEvent where
  | request (req : CallbackRequest)
  | timeout
deriving Repr, DecidableEq

/-- Listener lifecycle state: how the promise settled (first settlement
wins — a promise settles at most once) and whether the listener was closed. -/
structure ServerState where
  settled : Option Settlement
  closed : Bool
deriving Repr, DecidableEq

/-- One event against the listener. A request after settlement is inert (the
listener was closed when it settled); the timeout callback always calls
`server.close()` and its `reject` is a no-op once the promise has settled. -/
def serverStep (expectedState : String) (st : ServerState) : ServerEvent → ServerState
  | .request req =>
    match st.settled with
    | some _ => st
    | none =>
      let r := handleCallbackRequest expectedState req
      { settled := r.settle, closed := st.closed || r.serverClosed }
  | .timeout =>
    match st.settled with
    | some _ => { st with closed := true }
    | none =>
      { settled := some (.reject "Authorization timed out after 5 minutes"), closed := true }

/-- The full run of `startCallbackServer(expectedState)` over a sequence of
events, from the freshly listening state. -/
def runCallbackServer (expectedState : String) (events : List ServerEvent) : ServerState :=
  events.foldl (serverStep expectedState) { settled := none, closed := false }

/-! ### Flow tail (`runOAuthFlow` from the callback settlement on) -/

/-- Outcome of `runOAuthFlow` from `await callbackPromise` onward, with a
trace bit recording whether the token-exchange POST was issued. A rejected
callback promise makes the `await` throw, so `exchangeCodeForToken` and
`saveToken` never run; a resolved one proceeds to the exchange and, on its
success, to `saveToken`. -/
structure FlowTrace where
  result : Except String TokenData
  exchangeRequested : Bool
  file : FileContent
deriving Repr

/-- The tail of `runOAuthFlow(domain, clientId, clientSecret)` after the
callback promise settles, with the token endpoint's response, the clock and
the credential file threaded explicitly. -/
def runOAuthFlowFromCallback (domain clientId clientSecret : String)
    (settle : Settlement) (tokenResp : TokenEndpointResponse) (now : String)
    (file : FileContent) : FlowTrace :=
  match settle with
  | .reject e => { result := .error e, exchangeRequested := false, file := file }
  | .resolve code _shop =>
    match exchangeCodeForToken domain clientId clientSecret code tokenResp now with
    | .error e => { result := .error e, exchangeRequested := true, file := file }
    | .ok td => { result := .ok td, exchangeRequested := true, file := saveToken domain td file }

theorem handleCallbackRequest_state_mismatch (expectedState : String)
    (req : CallbackRequest) (hpath : req.pathname = "/callback")
    (hstate : req.state ≠ some expectedState) :
    handleCallbackRequest expectedState req =
      { responseStatus := 400, responseBody := "Invalid state parameter. Possible CSRF attack.",
        serverClosed := true, settle := some (.reject "Invalid state parameter") } := by
  simp [handleCallbackRequest, hpath, hstate]

/-- C2: a request to `/callback` whose `state` differs from the expected
nonce (a missing `state` included) is answered with HTTP 400, closes the
listener, rejects the promise with the invalid-state error, and the flow
continuation never issues the token-exchange request. -/
theorem callback_state_mismatch_rejects (expectedState : String) (req : CallbackRequest)
    (hpath : req.pathname = "/callback") (hstate : req.state ≠ some expectedState) :
    (handleCallbackRequest expectedState req).responseStatus = 400 ∧
    (handleCallbackRequest expectedState req).serverClosed = true ∧
    (handleCallbackRequest expectedState req).settle =
      some (.reject "Invalid state parameter") ∧
    ∀ st, (handleCallbackRequest expectedState req).settle = some st →
      ∀ (domain clientId clientSecret : String) (tokenResp : TokenEndpointResponse)
        (now : String) (file : FileContent),
        (runOAuthFlowFromCallback domain clientId clientSecret st tokenResp now
          file).exchangeRequested = false := by
  have hr := handleCallbackRequest_state_mismatch expectedState req hpath hstate
  refine ⟨by rw [hr], by rw [hr], by rw [hr], ?_⟩
  intro st hst domain clientId clientSecret tokenResp now file
  rw [hr] at hst
  simp only [Option.some_inj] at hst
  subst hst
  rfl

/-- Witness for `callback_state_mismatch_rejects`: a concrete callback with a
wrong nonce, carrying valid-looking `code` and `shop`, is rejected as CSRF
and the flow tail never performs the exchange. -/
theorem callback_state_mismatch_rejects_witness :
    (handleCallbackRequest "expected"
      ⟨"/callback", some "c", some "attacker", some "s.myshopify.com"⟩).responseStatus = 400 ∧
    (runOAuthFlowFromCallback "d" "i" "sec" (.reject "Invalid state parameter")
      ⟨true, 200, "", "tok", "sc"⟩ "now" .missing).exchangeRequested = false := by
  have h := callback_state_mismatch_rejects "expected"
    ⟨"/callback", some "c", some "attacker", some "s.myshopify.com"⟩ rfl (by decide)
  exact ⟨h.1, h.2.2.2 (.reject "Invalid state parameter") (by rw [h.2.2.1]) "d" "i" "sec"
    ⟨true, 200, "", "tok", "sc"⟩ "now" .missing⟩

theorem handler_settle_closes (expectedState : String) (req : CallbackRequest)
    (h : (handleCallbackRequest expectedState req).settle.isSome) :
    (handleCallbackRequest expectedState req).serverClosed = true := by
  revert h
  unfold handleCallbackRequest
  split
  · intro h; simp at h
  · split
    · intro _; rfl
    · split
      · intro _; rfl
      · intro _; rfl

theorem runCallbackServer_invariant (expectedState : String) (events : List ServerEvent)
    (st : ServerState) (hst : st.settled.isSome → st.closed = true) :
    (events.foldl (serverStep expectedState) st).settled.isSome →
    (events.foldl (serverStep expectedState) st).closed = true := by
  induction events generalizing st with
  | nil => exact hst
  | cons ev rest ih =>
    refine ih (serverStep expectedState st ev) ?_
    cases ev with
    | request req =>
      cases hs : st.settled with
      | some s =>
        intro _
        simp only [serverStep, hs]
        exact hst (by simp [hs])
      | none =>
        intro hset
        simp only [serverStep, hs] at hset ⊢
        have hclosed := handler_settle_closes expectedState req hset
        simp [hclosed]
    | timeout =>
      cases hs : st.settled with
      | some s => intro _; simp [serverStep, hs]
      | none => intro _; simp [serverStep, hs]

/-- C3: the listener is closed on every terminal outcome. Whenever a run of
`startCallbackServer` settles its promise — matching callback, CSRF mismatch,
missing `code`/`shop`, or the 5-minute timeout — the listener has been
closed, and a run that has seen no settling request settles with the timeout
error when the timer fires (closing the listener too). -/
theorem callback_server_releases_listener (expectedState : String)
    (events : List ServerEvent) :
    ((runCallbackServer expectedState events).settled.isSome →
      (runCallbackServer expectedState events).closed = true) ∧
    ((runCallbackServer expectedState events).settled = none →
      runCallbackServer expectedState (events ++ [.timeout]) =
        { settled := some (.reject "Authorization timed out after 5 minutes"),
          closed := true }) := by
  constructor
  · exact runCallbackServer_invariant expectedState events
      { settled := none, closed := false } (by intro h; simp at h)
  · intro hnone
    unfold runCallbackServer at *
    rw [List.foldl_append]
    simp only [List.foldl_cons, List.foldl_nil]
    simp [serverStep, hnone]

/-- Witness for `callback_server_releases_listener`: a run that sees one
off-path request and one CSRF request is settled and closed; a run that sees
only an off-path request is unsettled and the timeout then settles it. -/
theorem callback_server_releases_listener_witness :
    (runCallbackServer "x"
      [.request ⟨"/", none, none, none⟩,
       .request ⟨"/callback", some "c", some "bad", some "s"⟩]).closed = true ∧
    runCallbackServer "x" ([.request ⟨"/", none, none, none⟩] ++ [.timeout]) =
      { settled := some (.reject "Authorization timed out after 5 minutes"),
        closed := true } := by
  constructor
  · exact (callback_server_releases_listener "x"
      [.request ⟨"/", none, none, none⟩,
       .request ⟨"/callback", some "c", some "bad", some "s"⟩]).1 (by decide)
  · exact (callback_server_releases_listener "x"
      [.request ⟨"/", none, none, none⟩]).2 (by decide)

/-- C10: the state check precedes the missing-parameter check. A `/callback`
request with no `state` parameter — even one carrying both `code` and
`shop` — is rejected as invalid-state with HTTP 400, never as a malformed
callback; the malformed-callback rejection is reachable only when `state`
equals the expected nonce. -/
theorem callback_state_check_first (expectedState : String) :
    (∀ req : CallbackRequest, req.pathname = "/callback" → req.state = none →
      (handleCallbackRequest expectedState req).responseStatus = 400 ∧
      (handleCallbackRequest expectedState req).settle =
        some (.reject "Invalid state parameter")) ∧
    (∀ req : CallbackRequest,
      (handleCallbackRequest expectedState req).settle =
        some (.reject "Missing code or shop parameter") →
      req.state = some expectedState) := by
  constructor
  · intro req hpath hstate
    have hne : req.state ≠ some expectedState := by simp [hstate]
    have h := handleCallbackRequest_state_mismatch expectedState req hpath hne
    exact ⟨by rw [h], by rw [h]⟩
  · intro req
    unfold handleCallbackRequest
    split
    · intro h; exact absurd h (by decide)
    · split
      · intro h; exact absurd h (by decide)
      · next hstate =>
        intro _
        exact not_ne_iff.mp hstate

/-- Witness for `callback_state_check_first`: the concrete request with
`code` and `shop` but no `state` draws the CSRF rejection, and a concrete
malformed-callback rejection indeed carried the expected nonce. -/
theorem callback_state_check_first_witness :
    (handleCallbackRequest "x"
      ⟨"/callback", some "c", none, some "s.myshopify.com"⟩).settle =
      some (.reject "Invalid state parameter") ∧
    (⟨"/callback", none, some "x", some "s"⟩ : CallbackRequest).state = some "x" := by
  constructor
  · exact ((callback_state_check_first "x").1
      ⟨"/callback", some "c", none, some "s.myshopify.com"⟩ rfl rfl).2
  · exact (callback_state_check_first "x").2 ⟨"/callback", none, some "x", some "s"⟩ (by decide)

/-! ### File-size formatting (`getBulkOperationStatus.execute`) -/

/-- JS `(num / den).toFixed(2)` for a natural `num` and a power-of-two `den`
(1024 or 1048576 here): the double `num / den` is exact for `num < 2^53`, and
`toFixed` rounds the exact value to two decimals picking the larger candidate
on a tie (round half up), then prints with a zero-padded two-digit fraction. -/
def jsToFixed2 (num den : Nat) : String :=
  let n := (num * 100 * 2 + den) / (den * 2)
  toString (n / 100) ++ "." ++ (if n % 100 < 10 then "0" else "") ++ toString (n % 100)

/-- The `fileSizeFormatted` computation of `getBulkOperationStatus.execute`:
`bytes > 1024*1024` → MB with two decimals, else `bytes > 1024` → KB with two
decimals, else `"{bytes} bytes"`. -/
def formatFileSize (bytes : Nat) : String :=
  if bytes > 1024 * 1024 then jsToFixed2 bytes (1024 * 1024) ++ " MB"
  else if bytes > 1024 then jsToFixed2 bytes 1024 ++ " KB"
  else toString bytes ++ " bytes"

/-- C7 counterexample: the claim puts 1024 in the KB band (only byte counts
strictly below 1024 would render as bytes), but the code's strict `>`
comparison renders 1024 as `"1024 bytes"`, not `"1.00 KB"`. -/
theorem formatFileSize_boundary_counterexample :
    formatFileSize 1024 = "1024 bytes" ∧ formatFileSize 1024 ≠ "1.00 KB" := by
  constructor
  · rfl
  · decide

/-- C7 amended: the code renders `b` as `"{b} bytes"` when `b ≤ 1024`, as
`b/1024` to two decimals plus `" KB"` when `1024 < b ≤ 1048576`, and as
`b/1048576` to two decimals plus `" MB"` when `b > 1048576` (strict
thresholds at the binary 1024/1048576 values, bytes-band inclusive of the
bounds); in particular 500 → `"500 bytes"`, 2048 → `"2.00 KB"`,
5242880 → `"5.00 MB"`. -/
theorem formatFileSize_amended (b : Nat) :
    (b ≤ 1024 → formatFileSize b = toString b ++ " bytes") ∧
    (1024 < b → b ≤ 1024 * 1024 → formatFileSize b = jsToFixed2 b 1024 ++ " KB") ∧
    (1024 * 1024 < b → formatFileSize b = jsToFixed2 b (1024 * 1024) ++ " MB") ∧
    formatFileSize 500 = "500 bytes" ∧
    formatFileSize 2048 = "2.00 KB" ∧
    formatFileSize 5242880 = "5.00 MB" := by
  refine ⟨?_, ?_, ?_, by decide, by decide, by decide⟩
  · intro h
    have h1 : ¬ b > 1024 * 1024 := by omega
    have h2 : ¬ b > 1024 := by omega
    simp [formatFileSize, h1, h2]
  · intro h h'
    have h1 : ¬ b > 1024 * 1024 := by omega
    simp [formatFileSize, h1, h]
  · intro h
    simp [formatFileSize, h]

/-- Witness for `formatFileSize_amended` with each band's hypothesis
discharged at a concrete byte count. -/
theorem formatFileSize_amended_witness :
    formatFileSize 500 = toString 500 ++ " bytes" ∧
    formatFileSize 2048 = jsToFixed2 2048 1024 ++ " KB" ∧
    formatFileSize 5242880 = jsToFixed2 5242880 (1024 * 1024) ++ " MB" :=
  ⟨(formatFileSize_amended 500).1 (by decide),
   (formatFileSize_amended 2048).2.1 (by decide) (by decide),
   (formatFileSize_amended 5242880).2.2.1 (by decide)⟩

/-! ### Bulk-export submission (`startBulkExport.execute`) -/

/-- One entry of the mutation's `userErrors` list. -/
structure UserError where
  field : List String
  message : String
deriving Repr, DecidableEq

/-- The `bulkOperation` payload of a successful submission. -/
structure BulkOperationInfo where
  id : String
  status : String
  createdAt : String
deriving Repr, DecidableEq

/-- The decoded `bulkOperationRunQuery` mutation response. -/
structure BulkRunQueryResponse where
  bulkOperation : Option BulkOperationInfo
  userErrors : List UserError
deriving Repr, DecidableEq

/-- The success value `startBulkExport.execute` returns. -/
structure StartBulkExportSuccess where
  success : Bool
  operationId : String
  status : String
  createdAt : String
  exportType : String
deriving Repr, DecidableEq

/-- The `catch` block of `startBulkExport.execute` rethrows with this
prefix, so inner throws carry it twice. -/
def startBulkExportWrap (m : String) : String := "Failed to start bulk export: " ++ m

/-- The post-mutation slice of `startBulkExport.execute`: a non-empty
`userErrors` list throws (inner message joins the entries' `message` fields
with `", "`; the outer catch wraps it again), a missing `bulkOperation`
throws, else the operation's id/status/createdAt come back with
`success: true`. -/
def startBulkExportExecute (exportType : String) (resp : BulkRunQueryResponse) :
    Except String StartBulkExportSuccess :=
  if resp.userErrors.length > 0 then
    .error (startBulkExportWrap (startBulkExportWrap
      (String.intercalate ", " (resp.userErrors.map (fun e => e.message)))))
  else
    match resp.bulkOperation with
    | none => .error (startBulkExportWrap "Bulk operation was not created")
    | some op =>
      .ok { success := true, operationId := op.id, status := op.status,
            createdAt := op.createdAt, exportType := exportType }

/-- C8 counterexample: for the submission response carrying the single user
error `{field: ["query"], message: "boom"}` the tool throws, but the error
message is built from the `message` fields alone — the reported field name
`"query"` never occurs in it — so the message is not a concatenation of the
field/message pairs. -/
theorem startBulkExport_userErrors_counterexample :
    startBulkExportExecute "products" ⟨none, [⟨["query"], "boom"⟩]⟩ =
      .error "Failed to start bulk export: Failed to start bulk export: boom" ∧
    ¬ "query".toList <:+:
      "Failed to start bulk export: Failed to start bulk export: boom".toList := by
  constructor
  · rfl
  · decide

/-- C8 amended: whenever the submission mutation reports a non-empty
`userErrors` list, `startBulkExport.execute` fails — no operation id is
returned — with an error message that joins the reported `message` fields
(fields omitted) with `", "`, wrapped twice in the
`"Failed to start bulk export: "` prefix. -/
theorem startBulkExport_userErrors_amended (exportType : String)
    (resp : BulkRunQueryResponse) (h : resp.userErrors ≠ []) :
    startBulkExportExecute exportType resp =
      .error (startBulkExportWrap (startBulkExportWrap
        (String.intercalate ", " (resp.userErrors.map (fun e => e.message))))) := by
  have hlen : resp.userErrors.length > 0 := List.length_pos.mpr h
  simp [startBulkExportExecute, hlen]

/-- Witness for `startBulkExport_userErrors_amended` on a concrete
two-error response. -/
theorem startBulkExport_userErrors_amended_witness :
    startBulkExportExecute "products"
      ⟨some ⟨"gid", "CREATED", "t"⟩, [⟨["query"], "boom"⟩, ⟨[], "busy"⟩]⟩ =
      .error "Failed to start bulk export: Failed to start bulk export: boom, busy" :=
  startBulkExport_userErrors_amended "products"
    ⟨some ⟨"gid", "CREATED", "t"⟩, [⟨["query"], "boom"⟩, ⟨[], "busy"⟩]⟩ (by decide)

/-! ### Bulk-export results (`getBulkOperationResults.execute`) -/

/-- The operation snapshot `getBulkOperationResults.execute` re-fetches
first, with `objectCount` already through `parseInt` (the upstream field is a
numeric string). -/
structure ResultsOpData where
  id : String
  status : String
  objectCount : Nat
  fileSize : Option Nat
  url : Option String
  completedAt : Option String
  errorCode : Option String
deriving Repr, DecidableEq

/-- The result-file `fetch` response: `ok`/`status`/`statusText` and the
body text. -/
structure DownloadResponse where
  ok : Bool
  status : Nat
  statusText : String
  text : String
deriving Repr, DecidableEq

/-- `format` input of the results tool. -/
inductive ResultsFormat where
  | summary
  | sample
  | full
deriving Repr, DecidableEq

/-- `MAX_FULL_OBJECTS` from the source. -/
def MAX_FULL_OBJECTS : Nat := 1000

/-- Outcomes of `getBulkOperationResults.execute`, over the type `α` of
parsed JSONL values: `failure` for the returned `success: false` objects,
`thrown` for errors rethrown by the catch block, and one constructor per
successful format. -/
inductive ResultsOutcome (α : Type) where
  | failure (error : String)
  | thrown (message : String)
  | summaryResult (totalObjects : Nat) (downloadUrl : String)
  | sampleResult (objects : List α) (totalObjects : Nat)
  | fullResult (objects : List α) (totalObjects : Nat) (truncated : Bool)
deriving Repr

/-- JS `String.prototype.trim()`: strip leading and trailing whitespace. -/
def jsTrim (s : String) : String :=
  String.mk (((s.toList.dropWhile Char.isWhitespace).reverse.dropWhile
    Char.isWhitespace).reverse)

/-- JS `String.prototype.split("\n")` over the character list: cut at every
newline, keeping empty segments (`"".split("\n")` is `[""]`). -/
def splitNewlinesAux : List Char → List Char → List String
  | [], acc => [String.mk acc.reverse]
  | c :: cs, acc =>
    if c = '\n' then String.mk acc.reverse :: splitNewlinesAux cs []
    else splitNewlinesAux cs (c :: acc)

/-- `jsonlContent.trim().split("\n")`. -/
def splitJsonlLines (content : String) : List String :=
  splitNewlinesAux (jsTrim content).toList []

/-- `getBulkOperationResults.execute`: not-found / not-completed / expired
checks on the snapshot, then for `sample`/`full` a download (non-2xx throws,
rewrapped by the catch block), a line split, and a parse loop over the first
`limit` lines that skips malformed lines (`parse` stands for `JSON.parse`,
`none` for a throw). `sample` limits to `min sampleSize lines.length`, `full`
to `min MAX_FULL_OBJECTS lines.length`; `truncated` compares the snapshot's
`objectCount` against `MAX_FULL_OBJECTS`. -/
def getBulkOperationResultsExecute {α : Type} (parse : String → Option α)
    (format : ResultsFormat) (sampleSize : Nat) (opData : Option ResultsOpData)
    (download : DownloadResponse) : ResultsOutcome α :=
  match opData with
  | none => .failure "No bulk operation found."
  | some op =>
    if op.status ≠ "COMPLETED" then
      .failure ("Operation is not completed. Current status: " ++ op.status)
    else
      match op.url with
      | none =>
        .failure ("Operation completed but no download URL available. " ++
          "The results may have expired (7 day limit).")
      | some url =>
        match format with
        | .summary => .summaryResult op.objectCount url
        | _ =>
          if !download.ok then
            .thrown ("Failed to get bulk operation results: Failed to download results: " ++
              toString download.status ++ " " ++ download.statusText)
          else
            let lines := splitJsonlLines download.text
            let limit :=
              match format with
              | .sample => min sampleSize lines.length
              | _ => min MAX_FULL_OBJECTS lines.length
            let objects := (lines.take limit).filterMap parse
            match format with
            | .sample => .sampleResult objects op.objectCount
            | _ => .fullResult objects op.objectCount (op.objectCount > MAX_FULL_OBJECTS)

/-- Projection of a `fullResult` outcome to (object count, truncated flag). -/
def ResultsOutcome.fullShape {α : Type} : ResultsOutcome α → Option (Nat × Bool)
  | .fullResult objects _ truncated => some (objects.length, truncated)
  | _ => none

theorem filterMap_length_of_all_some {α : Type} (parse : String → Option α)
    (l : List String) (h : ∀ s ∈ l, (parse s).isSome) :
    (l.filterMap parse).length = l.length := by
  induction l with
  | nil => rfl
  | cons x xs ih =>
    have hx := h x (List.mem_cons_self x xs)
    obtain ⟨a, ha⟩ := Option.isSome_iff_exists.mp hx
    simp only [List.filterMap_cons, ha, List.length_cons]
    rw [ih fun s hs => h s (List.mem_cons_of_mem x hs)]

/-- C9: on a completed operation with a live URL whose result file splits
into `lines` well-formed records (every line parses) and whose snapshot
`objectCount` matches, `format=full` returns exactly
`min 1000 lines.length` objects and sets `truncated` exactly when the object
count exceeds 1000. -/
theorem getResults_full_cap (α : Type) (parse : String → Option α)
    (sampleSize : Nat) (op : ResultsOpData) (download : DownloadResponse)
    (lines : List String)
    (hstatus : op.status = "COMPLETED") (hurl : op.url.isSome)
    (hok : download.ok = true)
    (hlines : splitJsonlLines download.text = lines)
    (hparse : ∀ s ∈ lines, (parse s).isSome)
    (hcount : op.objectCount = lines.length) :
    (getBulkOperationResultsExecute parse .full sampleSize (some op)
      download).fullShape =
      some (min 1000 lines.length, decide (lines.length > 1000)) := by
  obtain ⟨url, hu⟩ := Option.isSome_iff_exists.mp hurl
  have hlen : ((splitJsonlLines download.text).take
      (min MAX_FULL_OBJECTS (splitJsonlLines download.text).length)).length =
      min MAX_FULL_OBJECTS (splitJsonlLines download.text).length := by
    rw [List.length_take]
    omega
  have hns : ¬ op.status ≠ "COMPLETED" := by simp [hstatus]
  simp only [getBulkOperationResultsExecute, hns, if_false, hu, hok,
    Bool.not_true, if_neg (by simp : ¬ (false = true))]
  simp only [ResultsOutcome.fullShape]
  congr 1
  rw [Prod.mk.injEq]
  constructor
  · rw [filterMap_length_of_all_some parse _ (by
      intro s hs
      exact hparse s (hlines ▸ List.mem_of_mem_take hs))]
    rw [hlines] at hlen ⊢
    rw [hlen]
    rfl
  · rw [hcount]
    rfl

/-- Witness for `getResults_full_cap` on a concrete completed operation whose
downloaded file holds three well-formed JSON lines: all three objects come
back and `truncated` is not set. -/
theorem getResults_full_cap_witness :
    (getBulkOperationResultsExecute (fun s => some s) .full 10
      (some ⟨"gid://shopify/BulkOperation/1", "COMPLETED", 3, some 99, some "u",
        some "2024-01-01T00:00:00Z", none⟩)
      ⟨true, 200, "OK", "1\n2\n3"⟩).fullShape = some (3, false) := by
  have h := getResults_full_cap String (fun s => some s) 10
    ⟨"gid://shopify/BulkOperation/1", "COMPLETED", 3, some 99, some "u",
      some "2024-01-01T00:00:00Z", none⟩
    ⟨true, 200, "OK", "1\n2\n3"⟩
    ["1", "2", "3"] rfl rfl rfl (by decide) (by simp) (by simp)
  simpa using h

end ShopifyMcp
